import Mathlib

/-!
Verification development for the WABridge scheduling/dispatch engine.

Shallow embedding of the server source:
- `rate-limit/rate-limiter.ts` (IST day window, daily cap),
- `bridge/reconnect.ts` (exponential backoff with jitter),
- `bridge/socket.ts` (ConnectionManager disconnect policy, socket access),
- `crypto/vault.ts` (encrypt/decrypt of the credential blob),
- `delivery/delivery.listener.ts` (delivery-ack handling),
- `scheduler/worker.ts` (send-job processing, job-failure handler),
- the scheduling service (cancel/retry, cron building, rule update).

Timestamps are modelled as milliseconds (`Nat`), byte sequences as
`List Nat` with entries `< 256`, JS strings that are manipulated
character-wise as `List Char`, and JS `null`/`undefined` as `Option`.
-/

namespace WABridge

/-! ## Intent rows (table `scheduled_messages`) -/

/-- Intent status, the `status` column of `scheduled_messages`. -/
inductive MsgStatus where
  | pending
  | sent
  | delivered
  | failed
  | cancelled
  deriving DecidableEq, Repr

/-- A row of `scheduled_messages`, restricted to the columns the verified
components read or write. -/
structure MsgRow where
  status : MsgStatus
  contactId : Option String := none
  groupId : Option String := none
  scheduledAt : Nat := 0
  sentAt : Option Nat := none
  deliveredAt : Option Nat := none
  failedAt : Option Nat := none
  failureReason : Option String := none
  updatedAt : Nat := 0
  attempts : Nat := 0
  whatsappMessageId : Option String := none
  deriving DecidableEq, Repr

/-! ## Rate limiter (`rate-limit/rate-limiter.ts`) -/

/-- The fixed IST offset, 5 h 30 min in milliseconds. -/
def istOffsetMs : Nat := 19800000

/-- One day in milliseconds. -/
def dayMs : Nat := 86400000

/-- `getTodayIST`: start of the current IST day, as a UTC millisecond
timestamp.  Takes the wall clock, adds 5:30, truncates to midnight and
subtracts 5:30 back. -/
def getTodayIST (nowMs : Nat) : Nat :=
  let istMs := nowMs + istOffsetMs
  let istMidnight := istMs - istMs % dayMs
  istMidnight - istOffsetMs

/-- `getNextMidnightIST`: the next IST midnight. -/
def getNextMidnightIST (nowMs : Nat) : Nat :=
  getTodayIST nowMs + dayMs

/-- The SQL filter of `getSentTodayCount`:
`sentAt >= todayStartMs AND status IN ('sent', 'delivered')`.
A row with `sentAt` NULL fails the comparison. -/
def sentTodayPred (todayStartMs : Nat) (m : MsgRow) : Bool :=
  match m.sentAt with
  | none => false
  | some t => todayStartMs ≤ t && (m.status = .sent || m.status = .delivered)

/-- `getSentTodayCount`: count of rows passing the SQL filter, with the
window start computed from the wall clock. -/
def getSentTodayCount (store : List MsgRow) (nowMs : Nat) : Nat :=
  (store.filter (sentTodayPred (getTodayIST nowMs))).length

/-- Result shape of `canSend`. -/
structure CanSendResult where
  allowed : Bool
  remaining : Nat
  sentToday : Nat
  dailyCap : Nat
  deriving DecidableEq, Repr

/-- `canSend`: `allowed = sentToday < dailyCap`,
`remaining = max 0 (dailyCap - sentToday)`. -/
def canSend (store : List MsgRow) (nowMs : Nat) (dailyCap : Nat) : CanSendResult :=
  let sentToday := getSentTodayCount store nowMs
  { allowed := decide (sentToday < dailyCap)
    remaining := dailyCap - sentToday
    sentToday := sentToday
    dailyCap := dailyCap }

/-- Stated from the spec's words, for comparison with `getSentTodayCount`:
the number of intents whose `sentAt` falls within the current IST day,
i.e. inside `[IST-midnight, IST-midnight + 24h)`, and whose status is
`sent` or `delivered`. -/
def specSentTodayCount (store : List MsgRow) (nowMs : Nat) : Nat :=
  (store.filter (fun m =>
    match m.sentAt with
    | none => false
    | some t =>
        getTodayIST nowMs ≤ t && t < getTodayIST nowMs + dayMs
          && (m.status = .sent || m.status = .delivered))).length

/-- Rows counted by the code although their `sentAt` lies at or after the
end of the current IST day. -/
def overflowSentCount (store : List MsgRow) (nowMs : Nat) : Nat :=
  (store.filter (fun m =>
    match m.sentAt with
    | none => false
    | some t =>
        getTodayIST nowMs + dayMs ≤ t
          && (m.status = .sent || m.status = .delivered))).length

/-! ## Reconnect backoff (`bridge/reconnect.ts`) -/

/-- Configuration for `calculateBackoff`. -/
structure BackoffConfig where
  baseDelayMs : ℚ
  maxDelayMs : ℚ
  deriving DecidableEq, Repr

/-- `calculateBackoff`: `min(baseDelay * 2^attempt, maxDelay)` times the
jitter factor `1 + (r*2 - 1) * 0.2`, where `r` is the `Math.random()`
draw in `[0, 1)`. -/
def calculateBackoff (attempt : Nat) (config : BackoffConfig) (r : ℚ) : ℚ :=
  let exponentialDelay := min (config.baseDelayMs * 2 ^ attempt) config.maxDelayMs
  let jitterFactor := 1 + (r * 2 - 1) * (2 / 10)
  exponentialDelay * jitterFactor

/-- `isRetryWindowExhausted`: more than `maxRetryMs` have passed since
`retryStartedAt`. -/
def isRetryWindowExhausted (retryStartedAtMs nowMs maxRetryMs : Nat) : Bool :=
  decide (maxRetryMs < nowMs - retryStartedAtMs)

/-! ## ConnectionManager (`bridge/socket.ts`)

The manager's mutable fields that the verified claims read are kept in
`CMState`; externally visible side effects (clearing the credential
table, invoking `connect()` synchronously, arming the reconnect timer,
broadcasting status) are recorded as an `Effect` list. -/

/-- Connection status (`bridge/types.ts`). -/
inductive ConnStatus where
  | pairing
  | connecting
  | connected
  | disconnected
  deriving DecidableEq, Repr

/-- The ConnectionManager fields relevant to disconnect policy and
socket visibility.  `sockPresent` is whether `this.sock` is non-null,
`timerPending` whether `this.reconnectTimer` is non-null. -/
structure CMState where
  status : ConnStatus
  reconnectAttempt : Nat
  retryStartedAt : Option Nat
  sockPresent : Bool
  timerPending : Bool
  deriving DecidableEq, Repr

/-- Externally visible side effects of the manager. -/
inductive Effect where
  /-- `clearAuthState()`: delete every row of the `auth_state` table. -/
  | clearAuth
  /-- `broadcast({type: 'status', ...})`. -/
  | broadcastStatus
  /-- `this.connect()` invoked synchronously (no timer). -/
  | connectNow
  /-- `setTimeout(... this.connect() ..., delayMs)`. -/
  | timer (delayMs : ℚ)
  deriving DecidableEq, Repr

/-- Field initializers of `ConnectionManager`: no socket, no timer,
status `pairing`, zero attempts. -/
def initialCMState : CMState :=
  { status := .pairing
    reconnectAttempt := 0
    retryStartedAt := none
    sockPresent := false
    timerPending := false }

/-- `cleanupSocket()`: clear the reconnect timer and close/drop any
existing socket; auth state untouched. -/
def cleanupSocket (s : CMState) : CMState :=
  { s with timerPending := false, sockPresent := false }

/-- `connect()`: clean up, then create a fresh socket
(`this.sock = makeWASocket(...)`). -/
def connectStart (s : CMState) : CMState :=
  { cleanupSocket s with sockPresent := true }

/-- `clearAuthState()` as a state/effect pair. -/
def clearAuthState (s : CMState) : CMState × List Effect :=
  (s, [Effect.clearAuth])

/-- `scheduleReconnect(delayMs)`: (re)arm the reconnect timer. -/
def scheduleReconnect (s : CMState) (delayMs : ℚ) : CMState × List Effect :=
  ({ s with timerPending := true }, [Effect.timer delayMs])

/-- `resetToPairing()`: zero the counters, show `pairing`, clear account
data, and immediately call `connect()` for a fresh pairing code. -/
def resetToPairing (s : CMState) : CMState × List Effect :=
  let s1 := { s with reconnectAttempt := 0, retryStartedAt := none, status := .pairing }
  (connectStart s1, [Effect.connectNow])

/-- `reconnectWithBackoff()`: start the retry window if absent; if the
window is exhausted, clear credentials and reset to pairing; otherwise
compute a jittered backoff delay, bump the attempt counter, show
`connecting`, broadcast and arm the timer. -/
def reconnectWithBackoff (s : CMState) (nowMs : Nat) (r : ℚ)
    (maxRetryMs : Nat) (cfg : BackoffConfig) : CMState × List Effect :=
  let started := s.retryStartedAt.getD nowMs
  let s0 := { s with retryStartedAt := some started }
  if isRetryWindowExhausted started nowMs maxRetryMs then
    let (s1, e1) := clearAuthState s0
    let (s2, e2) := resetToPairing s1
    (s2, e1 ++ e2)
  else
    let delay := calculateBackoff s0.reconnectAttempt cfg r
    let s1 := { s0 with reconnectAttempt := s0.reconnectAttempt + 1, status := .connecting }
    let (s2, e2) := scheduleReconnect s1 delay
    (s2, Effect.broadcastStatus :: e2)

/-- `handleDisconnect(statusCode)`: the disconnect-reason switch of
`ConnectionManager` (`loggedOut` = 401, `connectionReplaced` = 440,
`restartRequired` = 515, `forbidden` = 403, default = transient). -/
def handleDisconnect (s : CMState) (statusCode : Nat) (nowMs : Nat) (r : ℚ)
    (maxRetryMs : Nat) (cfg : BackoffConfig) : CMState × List Effect :=
  if statusCode = 401 then
    let (s1, e1) := clearAuthState s
    let (s2, e2) := resetToPairing s1
    (s2, e1 ++ e2)
  else if statusCode = 440 then
    ({ s with status := .disconnected }, [Effect.broadcastStatus])
  else if statusCode = 515 then
    scheduleReconnect s 0
  else if statusCode = 403 then
    let (s1, e1) := clearAuthState s
    let (s2, e2) := resetToPairing s1
    (s2, e1 ++ e2)
  else
    reconnectWithBackoff s nowMs r maxRetryMs cfg

/-- `getSocket()`: `return this.sock` — the socket whenever one exists,
with no status check. -/
def getSocket (s : CMState) : Option Unit :=
  if s.sockPresent then some () else none

/-- Events that drive the manager: an invocation of `connect()` (boot or
timer fire), and the `qr` / `open` / `close` arms of
`handleConnectionUpdate`. -/
inductive CMEvent where
  | connectCall
  | qrEvent
  | openEvent
  | closeEvent (code : Nat) (nowMs : Nat) (r : ℚ)

/-- One step of the manager's control loop. -/
def cmStep (maxRetryMs : Nat) (cfg : BackoffConfig) (s : CMState) (e : CMEvent) : CMState :=
  match e with
  | .connectCall => connectStart s
  | .qrEvent => { s with status := .pairing, reconnectAttempt := 0 }
  | .openEvent => { s with status := .connected, reconnectAttempt := 0, retryStartedAt := none }
  | .closeEvent code nowMs r => (handleDisconnect s code nowMs r maxRetryMs cfg).1

/-- States reached from boot by a sequence of events. -/
def cmRun (maxRetryMs : Nat) (cfg : BackoffConfig) (events : List CMEvent) : CMState :=
  events.foldl (cmStep maxRetryMs cfg) initialCMState

/-! ## Send-job processing (`scheduler/worker.ts`) -/

/-- Environment a send job sees: the rate-limiter answer, whether the
contact row exists, whether `getSocket()` returns a socket, and the
provider message id `sendMessage` returns. -/
structure SendDeps where
  capResult : CanSendResult
  contactFound : Bool
  sockConnected : Bool
  providerMessageId : Option String
  deriving DecidableEq, Repr

/-- How a send job ends: an early return, a successful send, or a thrown
error (which BullMQ counts as a job failure). -/
inductive SendOutcome where
  | skippedMissing
  | skippedCancelled
  | failedCap
  | sent
  | threw (message : String)
  deriving DecidableEq, Repr

/-- The cap-denied failure reason string. -/
def capReason (sentToday dailyCap : Nat) : String :=
  "Daily message cap reached (" ++ toString sentToday ++ "/" ++ toString dailyCap ++ ")"

/-- The cap-denied write of `processSendJob`: `status='failed'`,
`failedAt`/`failureReason`/`updatedAt` set; nothing else touched. -/
def capFailWrite (deps : SendDeps) (nowMs : Nat) (m : MsgRow) : MsgRow :=
  { m with
    status := .failed
    failedAt := some nowMs
    failureReason := some (capReason deps.capResult.sentToday deps.capResult.dailyCap)
    updatedAt := nowMs }

/-- The success write of `processSendJob`: `status='sent'`,
`whatsappMessageId`, `sentAt`, `attempts = snapshotAttempts + 1`,
`updatedAt`; applied to the row by id, whatever its current content. -/
def sentWrite (deps : SendDeps) (nowMs snapshotAttempts : Nat) (m : MsgRow) : MsgRow :=
  { m with
    status := .sent
    whatsappMessageId := deps.providerMessageId
    sentAt := some nowMs
    attempts := snapshotAttempts + 1
    updatedAt := nowMs }

/-- `processSendJob`, run to completion with no interleaving: read the
row (`none` = deleted), return if missing or `cancelled`, write `failed`
when the cap denies, throw when the recipient cannot be resolved or the
socket is absent, otherwise send and write `sent`. -/
def processSendJob (row : Option MsgRow) (deps : SendDeps) (nowMs : Nat) :
    Option MsgRow × SendOutcome :=
  match row with
  | none => (none, .skippedMissing)
  | some msg =>
    if msg.status = .cancelled then (some msg, .skippedCancelled)
    else if !deps.capResult.allowed then
      (some (capFailWrite deps nowMs msg), .failedCap)
    else if msg.groupId.isNone && msg.contactId.isSome && !deps.contactFound then
      (some msg, .threw "Contact not found")
    else if msg.groupId.isNone && msg.contactId.isNone then
      (some msg, .threw "Message has neither contactId nor groupId")
    else if !deps.sockConnected then
      (some msg, .threw "WhatsApp not connected")
    else
      (some (sentWrite deps nowMs msg.attempts msg), .sent)

/-- The `worker.on('failed')` handler: unconditionally write
`status='failed'` with the error message and attempt count on the row by
id. -/
def onJobFailed (row : Option MsgRow) (errMessage : String) (attemptsMade nowMs : Nat) :
    Option MsgRow :=
  row.map fun m =>
    { m with
      status := .failed
      failedAt := some nowMs
      failureReason := some errMessage
      attempts := attemptsMade + 1
      updatedAt := nowMs }

/-! ## Scheduling service: cancel and retry (scheduling service source) -/

/-- `cancelMessage`: one atomic conditional update
`WHERE id = ? AND status = 'pending'` setting `status='cancelled'`,
returning the updated row or null.  Result: (new row state, returned
value). -/
def cancelMessage (row : Option MsgRow) (nowMs : Nat) : Option MsgRow × Option MsgRow :=
  match row with
  | none => (none, none)
  | some m =>
    if m.status = .pending then
      let m' := { m with status := .cancelled, updatedAt := nowMs }
      (some m', some m')
    else (some m, none)

/-- `retryMessage`: one atomic conditional update
`WHERE id = ? AND status = 'failed'` resetting to `pending` with
`attempts = 0`, `failedAt`/`failureReason` cleared,
`scheduledAt = now`. -/
def retryMessage (row : Option MsgRow) (nowMs : Nat) : Option MsgRow × Option MsgRow :=
  match row with
  | none => (none, none)
  | some m =>
    if m.status = .failed then
      let m' := { m with
        status := .pending
        attempts := 0
        failedAt := none
        failureReason := none
        scheduledAt := nowMs
        updatedAt := nowMs }
      (some m', some m')
    else (some m, none)

/-! ## Cancel vs. dispatch interleaving

`processSendJob` runs synchronously from the row read up to the
`sendMessage` call, suspends at the `await`, then runs the `sent`
update synchronously.  On the single-threaded event loop `cancelMessage`
can commit before the first segment or between the two segments. -/

/-- Where the dispatcher is in a send job. -/
inductive DispPhase where
  | idle
  | inFlight (snapshot : MsgRow)
  | done (outcome : SendOutcome)
  deriving DecidableEq, Repr

/-- Joint state of the intent row, the dispatcher, the provider-call
count and the value `cancelMessage` returned (if it ran). -/
structure RaceState where
  row : Option MsgRow
  phase : DispPhase
  providerCalls : Nat
  cancelReturned : Option (Option MsgRow)
  deriving DecidableEq, Repr

/-- Atomic steps of the interleaving: the dispatcher's synchronous
segment up to and including the `sendMessage` call, the dispatcher's
post-`await` status update, and a `cancelMessage` call. -/
inductive RaceStep where
  | dispatchBegin
  | dispatchCommit
  | cancelStep
  deriving DecidableEq, Repr

/-- One interleaving step. -/
def raceStep (deps : SendDeps) (nowMs : Nat) (st : RaceState) : RaceStep → RaceState
  | .dispatchBegin =>
    match st.phase with
    | .idle =>
      match st.row with
      | none => { st with phase := .done .skippedMissing }
      | some msg =>
        if msg.status = .cancelled then { st with phase := .done .skippedCancelled }
        else if !deps.capResult.allowed then
          { st with row := some (capFailWrite deps nowMs msg), phase := .done .failedCap }
        else if msg.groupId.isNone && msg.contactId.isSome && !deps.contactFound then
          { st with phase := .done (.threw "Contact not found") }
        else if msg.groupId.isNone && msg.contactId.isNone then
          { st with phase := .done (.threw "Message has neither contactId nor groupId") }
        else if !deps.sockConnected then
          { st with phase := .done (.threw "WhatsApp not connected") }
        else
          { st with phase := .inFlight msg, providerCalls := st.providerCalls + 1 }
    | _ => st
  | .dispatchCommit =>
    match st.phase with
    | .inFlight snapshot =>
      { st with
        row := st.row.map (sentWrite deps nowMs snapshot.attempts)
        phase := .done .sent }
    | _ => st
  | .cancelStep =>
    match st.cancelReturned with
    | some _ => st
    | none =>
      let (row', ret) := cancelMessage st.row nowMs
      { st with row := row', cancelReturned := some ret }

/-- Run an interleaving from an initial row. -/
def raceRun (deps : SendDeps) (nowMs : Nat) (row : Option MsgRow)
    (steps : List RaceStep) : RaceState :=
  steps.foldl (raceStep deps nowMs)
    { row := row, phase := .idle, providerCalls := 0, cancelReturned := none }

/-! ## Delivery listener (`delivery/delivery.listener.ts`) -/

/-- The `status='delivered'` write of the delivery listener. -/
def deliveredWrite (nowMs : Nat) (m : MsgRow) : MsgRow :=
  { m with status := .delivered, deliveredAt := some nowMs, updatedAt := nowMs }

/-- One `messages.update` entry: skip when `update.status` is falsy
(absent or `0`) or `key.id` is absent; on the delivered sentinel
(status `3`) update every row whose `whatsappMessageId` matches —
no condition on the current status — and broadcast a
`message:status` event when a row matched.  Other statuses are
ignored.  Returns the new store and whether an event was emitted. -/
def handleDeliveryAck (store : List MsgRow) (ackStatus : Option Nat)
    (keyId : Option String) (nowMs : Nat) : List MsgRow × Bool :=
  match ackStatus, keyId with
  | some st, some kid =>
    if st = 0 then (store, false)
    else if st = 3 then
      (store.map (fun m =>
          if m.whatsappMessageId = some kid then deliveredWrite nowMs m else m),
        store.any (fun m => m.whatsappMessageId = some kid))
    else (store, false)
  | _, _ => (store, false)

/-! ## Credential vault (`crypto/vault.ts`)

JS strings handled character-wise are embedded as `List Char`; byte
buffers as `List Nat` with entries `< 256`.  `jsplit` mirrors
`String.prototype.split` with a one-character separator, `b64encode` /
`b64decode` mirror `Buffer.toString('base64')` / `Buffer.from(_,
'base64')` (the decoder skips characters outside the alphabet, as Node
does). -/

/-- `split(sep)` of a JS string with a single-character separator. -/
def jsplit (sep : Char) : List Char → List (List Char)
  | [] => [[]]
  | c :: cs =>
    if c = sep then [] :: jsplit sep cs
    else
      match jsplit sep cs with
      | [] => [[c]]
      | p :: ps => (c :: p) :: ps

/-- The base64 alphabet, in value order. -/
def b64Alphabet : List Char :=
  [ 'A', 'B', 'C', 'D', 'E', 'F', 'G', 'H', 'I', 'J', 'K', 'L', 'M',
    'N', 'O', 'P', 'Q', 'R', 'S', 'T', 'U', 'V', 'W', 'X', 'Y', 'Z',
    'a', 'b', 'c', 'd', 'e', 'f', 'g', 'h', 'i', 'j', 'k', 'l', 'm',
    'n', 'o', 'p', 'q', 'r', 's', 't', 'u', 'v', 'w', 'x', 'y', 'z',
    '0', '1', '2', '3', '4', '5', '6', '7', '8', '9', '+', '/' ]

/-- Character for a 6-bit value. -/
def valToChar (v : Nat) : Char := b64Alphabet.getD v 'A'

/-- 6-bit value of a character, `none` outside the alphabet
(in particular for `=` and `:`). -/
def charVal (c : Char) : Option Nat := b64Alphabet.indexOf? c

/-- Base64-encode a byte sequence (with `=` padding). -/
def b64encode : List Nat → List Char
  | [] => []
  | [b1] =>
    [valToChar (b1 / 4), valToChar (b1 % 4 * 16), '=', '=']
  | [b1, b2] =>
    [valToChar (b1 / 4), valToChar (b1 % 4 * 16 + b2 / 16), valToChar (b2 % 16 * 4), '=']
  | b1 :: b2 :: b3 :: rest =>
    valToChar (b1 / 4) :: valToChar (b1 % 4 * 16 + b2 / 16) ::
      valToChar (b2 % 16 * 4 + b3 / 64) :: valToChar (b3 % 64) :: b64encode rest

/-- Reassemble bytes from 6-bit values (lenient tail handling, as
Node's decoder). -/
def b64decodeVals : List Nat → List Nat
  | v1 :: v2 :: v3 :: v4 :: rest =>
    (v1 * 4 + v2 / 16) :: (v2 % 16 * 16 + v3 / 4) :: (v3 % 4 * 64 + v4) :: b64decodeVals rest
  | [v1, v2, v3] => [v1 * 4 + v2 / 16, v2 % 16 * 16 + v3 / 4]
  | [v1, v2] => [v1 * 4 + v2 / 16]
  | _ => []

/-- Base64-decode, skipping characters outside the alphabet. -/
def b64decode (s : List Char) : List Nat :=
  b64decodeVals (s.filterMap charVal)

/-- Modelled from the spec: the scrypt key derivation of `deriveKey`
(node:crypto, not in the repository) as an ideal collision-free
memory-hard KDF — the derived 256-bit key is determined by and
determines the `(password, salt)` pair. -/
def deriveKey (password salt : List Nat) : List Nat × List Nat :=
  (password, salt)

/-- Modelled from the spec: one AES-256-GCM keystream byte for position
`i` under the derived key and nonce. -/
def ksByte (key : List Nat × List Nat) (iv : List Nat) (i : Nat) : Nat :=
  (key.1.sum + key.2.sum + iv.sum + i) % 256

/-- XOR a byte sequence against the keystream starting at position
`i`. -/
def xorStream (key : List Nat × List Nat) (iv : List Nat) : Nat → List Nat → List Nat
  | _, [] => []
  | i, b :: bs => Nat.xor b (ksByte key iv i) :: xorStream key iv (i + 1) bs

/-- Modelled from the spec: AES-256-GCM encryption of the plaintext
bytes (node:crypto `cipher.update`/`final`). -/
def gcmEncryptBytes (key : List Nat × List Nat) (iv pt : List Nat) : List Nat :=
  xorStream key iv 0 pt

/-- Modelled from the spec: AES-256-GCM decryption
(node:crypto `decipher.update`/`final`). -/
def gcmDecryptBytes (key : List Nat × List Nat) (iv ct : List Nat) : List Nat :=
  xorStream key iv 0 ct

/-- Modelled from the spec: the 128-bit GCM authentication tag as an
ideal MAC — it authenticates exactly the derived key, nonce and
ciphertext, and distinct inputs give distinct tags. -/
def gcmTag (key : List Nat × List Nat) (iv ct : List Nat) : List Nat :=
  key.1 ++ key.2 ++ iv ++ ct

/-- `encrypt(plaintext, masterKey)` with the two `randomBytes` draws
(the 16-byte salt and the 12-byte IV) passed explicitly: derive the key
from the master key and the fresh salt, GCM-encrypt under the fresh IV,
and return `salt:iv:tag:ciphertext`, each part base64. -/
def encrypt (plaintext password salt iv : List Nat) : List Char :=
  let key := deriveKey password salt
  let encrypted := gcmEncryptBytes key iv plaintext
  let tag := gcmTag key iv encrypted
  b64encode salt ++ ':' :: (b64encode iv ++ ':' :: (b64encode tag ++ ':' :: b64encode encrypted))

/-- How `decrypt` fails: a missing destructured component
(`Buffer.from(undefined)` throws), or the GCM integrity check
(`decipher.final()` throws). -/
inductive VaultError where
  | missingComponent
  | integrityFailure
  deriving DecidableEq, Repr

/-- `decrypt(encryptedStr, masterKey)`: split on `:`, destructure the
first four parts (components past the fourth are dropped by the JS
array destructuring), base64-decode each, re-derive the key from the
embedded salt, check the authentication tag and decrypt. -/
def decrypt (encryptedStr : List Char) (password : List Nat) :
    Except VaultError (List Nat) :=
  match jsplit ':' encryptedStr with
  | saltB64 :: ivB64 :: tagB64 :: dataB64 :: _ =>
    let salt := b64decode saltB64
    let iv := b64decode ivB64
    let tag := b64decode tagB64
    let encrypted := b64decode dataB64
    let key := deriveKey password salt
    if tag = gcmTag key iv encrypted then
      .ok (gcmDecryptBytes key iv encrypted)
    else
      .error .integrityFailure
  | _ => .error .missingComponent

/-! ## Cron expressions and rule update (scheduling service source) -/

/-- The `CronParams` interface. -/
structure CronParams where
  sendHour : Option Nat := none
  sendMinute : Option Nat := none
  dayOfWeek : Option Nat := none
  dayOfMonth : Option Nat := none
  month : Option Nat := none
  deriving DecidableEq, Repr

/-- `buildCronExpression(type, params, defaultSendHour)`:
`none` models the thrown `Unknown recurring type` error; `custom`
returns the empty string (BullMQ `every` is used instead). -/
def buildCronExpression (type : String) (params : CronParams)
    (defaultSendHour : Nat) : Option String :=
  let hour := params.sendHour.getD defaultSendHour
  let minute := params.sendMinute.getD 0
  match type with
  | "daily" =>
    some ("0 " ++ toString minute ++ " " ++ toString hour ++ " * * *")
  | "weekly" =>
    some ("0 " ++ toString minute ++ " " ++ toString hour ++ " * * "
      ++ toString (params.dayOfWeek.getD 1))
  | "monthly" =>
    let day := if params.dayOfMonth.getD 1 > 28 then "L" else toString (params.dayOfMonth.getD 1)
    some ("0 " ++ toString minute ++ " " ++ toString hour ++ " " ++ day ++ " * *")
  | "yearly" =>
    some ("0 " ++ toString minute ++ " " ++ toString hour ++ " "
      ++ toString (params.dayOfMonth.getD 1) ++ " " ++ toString (params.month.getD 1) ++ " *")
  | "birthday" =>
    some ("0 " ++ toString minute ++ " " ++ toString hour ++ " "
      ++ toString (params.dayOfMonth.getD 1) ++ " " ++ toString (params.month.getD 1) ++ " *")
  | "custom" => some ""
  | _ => none

/-- The scheduling fields of an `updateRecurringRule` patch. -/
structure RuleUpdates where
  sendHour : Option Nat := none
  sendMinute : Option Nat := none
  dayOfWeek : Option Nat := none
  dayOfMonth : Option Nat := none
  month : Option Nat := none
  intervalDays : Option Nat := none
  deriving DecidableEq, Repr

/-- `needsCronUpdate`: some scheduling parameter is present in the
patch. -/
def needsCronUpdate (u : RuleUpdates) : Bool :=
  u.sendHour.isSome || u.sendMinute.isSome || u.dayOfWeek.isSome
    || u.dayOfMonth.isSome || u.month.isSome || u.intervalDays.isSome

/-- The `cronExpression` column value after `updateRecurringRule`:
when a scheduling parameter changed, rebuild from the patch parameters
alone (`buildCronExpression(existing.type, {updates...})`), falling
back to the `every-N-days` form when the built expression is empty;
otherwise keep the stored expression. -/
def updatedCronExpression (existingType : String) (existingCron : String)
    (existingIntervalDays : Option Nat) (u : RuleUpdates)
    (defaultSendHour : Nat) : Option String :=
  if needsCronUpdate u then
    (buildCronExpression existingType
        { sendHour := u.sendHour
          sendMinute := u.sendMinute
          dayOfWeek := u.dayOfWeek
          dayOfMonth := u.dayOfMonth
          month := u.month } defaultSendHour).map
      (fun newCron =>
        if newCron = "" then
          "every-" ++ toString ((u.intervalDays.orElse (fun _ => existingIntervalDays)).getD 1) ++ "-days"
        else newCron)
  else some existingCron

/-! ## Theorems -/

/-- C9: for every reconnect attempt number `n` and every jitter draw
(`Math.random()` value in `[0, 1)`), the scheduled backoff delay lies in
the closed interval `[0.8, 1.2] × min(baseDelay × 2^n, maxDelay)`. -/
theorem C9_backoff_bounds (attempt : Nat) (cfg : BackoffConfig) (r : ℚ)
    (h0 : 0 ≤ r) (h1 : r < 1)
    (hbase : 0 ≤ cfg.baseDelayMs) (hmax : 0 ≤ cfg.maxDelayMs) :
    8 / 10 * min (cfg.baseDelayMs * 2 ^ attempt) cfg.maxDelayMs
        ≤ calculateBackoff attempt cfg r
    ∧ calculateBackoff attempt cfg r
        ≤ 12 / 10 * min (cfg.baseDelayMs * 2 ^ attempt) cfg.maxDelayMs := by
  have hm : 0 ≤ min (cfg.baseDelayMs * 2 ^ attempt) cfg.maxDelayMs :=
    le_min (mul_nonneg hbase (by positivity)) hmax
  have hr1 : (0:ℚ) ≤ 1 - r := by linarith
  unfold calculateBackoff
  constructor
  · nlinarith [mul_nonneg hm h0]
  · nlinarith [mul_nonneg hm hr1]

/-- Witness for C9 at attempt 3, base 1000 ms, max 60000 ms, draw 1/2. -/
theorem C9_backoff_bounds_witness :
    (0:ℚ) ≤ 1 / 2 ∧ (1 / 2 : ℚ) < 1 ∧ (0:ℚ) ≤ (1000:ℚ) ∧ (0:ℚ) ≤ (60000:ℚ)
    ∧ (8 / 10 * min ((1000:ℚ) * 2 ^ 3) 60000
          ≤ calculateBackoff 3 ⟨1000, 60000⟩ (1 / 2)
        ∧ calculateBackoff 3 ⟨1000, 60000⟩ (1 / 2)
          ≤ 12 / 10 * min ((1000:ℚ) * 2 ^ 3) 60000) :=
  ⟨by norm_num, by norm_num, by norm_num, by norm_num,
    C9_backoff_bounds 3 ⟨1000, 60000⟩ (1 / 2)
      (by norm_num) (by norm_num) (by norm_num) (by norm_num)⟩

/-- C4: the disconnect-code policy of the Connection Manager: 401 clears
all credential rows and resets to pairing with an immediate reconnect;
440 is terminal `disconnected` with no reconnect effect; 515 arms the
reconnect timer with zero delay; 403 clears credentials and resets to
pairing; every other code takes the backoff-with-jitter path. -/
theorem C4_disconnect_policy (s : CMState) (nowMs : Nat) (r : ℚ)
    (maxRetryMs : Nat) (cfg : BackoffConfig) (code : Nat)
    (h401 : code ≠ 401) (h440 : code ≠ 440) (h515 : code ≠ 515) (h403 : code ≠ 403) :
    handleDisconnect s 401 nowMs r maxRetryMs cfg
      = (connectStart { s with reconnectAttempt := 0, retryStartedAt := none, status := .pairing },
          [Effect.clearAuth, Effect.connectNow])
    ∧ handleDisconnect s 440 nowMs r maxRetryMs cfg
      = ({ s with status := .disconnected }, [Effect.broadcastStatus])
    ∧ handleDisconnect s 515 nowMs r maxRetryMs cfg
      = ({ s with timerPending := true }, [Effect.timer 0])
    ∧ handleDisconnect s 403 nowMs r maxRetryMs cfg
      = (connectStart { s with reconnectAttempt := 0, retryStartedAt := none, status := .pairing },
          [Effect.clearAuth, Effect.connectNow])
    ∧ handleDisconnect s code nowMs r maxRetryMs cfg
      = reconnectWithBackoff s nowMs r maxRetryMs cfg := by
  refine ⟨?_, ?_, ?_, ?_, ?_⟩ <;>
    simp [handleDisconnect, clearAuthState, resetToPairing, scheduleReconnect,
      h401, h440, h515, h403]

/-- Witness for C4 at the boot state with transient code 428. -/
theorem C4_disconnect_policy_witness :
    (428:Nat) ≠ 401 ∧ (428:Nat) ≠ 440 ∧ (428:Nat) ≠ 515 ∧ (428:Nat) ≠ 403
    ∧ (handleDisconnect initialCMState 401 0 0 1800000 ⟨1000, 60000⟩
        = (connectStart { initialCMState with
              reconnectAttempt := 0, retryStartedAt := none, status := .pairing },
            [Effect.clearAuth, Effect.connectNow])
      ∧ handleDisconnect initialCMState 440 0 0 1800000 ⟨1000, 60000⟩
        = ({ initialCMState with status := .disconnected }, [Effect.broadcastStatus])
      ∧ handleDisconnect initialCMState 515 0 0 1800000 ⟨1000, 60000⟩
        = ({ initialCMState with timerPending := true }, [Effect.timer 0])
      ∧ handleDisconnect initialCMState 403 0 0 1800000 ⟨1000, 60000⟩
        = (connectStart { initialCMState with
              reconnectAttempt := 0, retryStartedAt := none, status := .pairing },
            [Effect.clearAuth, Effect.connectNow])
      ∧ handleDisconnect initialCMState 428 0 0 1800000 ⟨1000, 60000⟩
        = reconnectWithBackoff initialCMState 0 0 1800000 ⟨1000, 60000⟩) :=
  ⟨by decide, by decide, by decide, by decide,
    C4_disconnect_policy initialCMState 0 0 1800000 ⟨1000, 60000⟩ 428
      (by decide) (by decide) (by decide) (by decide)⟩

/-- C7 (evaluation at the failing state): right after boot's `connect()`
call, before any `open` event, the manager's status is `pairing` while
`getSocket()` already returns the socket, not nil — contradicting the
claim (and `getSocket`'s own doc comment) that a non-`connected` status
implies a nil socket. -/
theorem C7_getSocket_without_connected :
    (cmRun 1800000 ⟨1000, 60000⟩ [CMEvent.connectCall]).status = ConnStatus.pairing
    ∧ (cmRun 1800000 ⟨1000, 60000⟩ [CMEvent.connectCall]).status ≠ ConnStatus.connected
    ∧ getSocket (cmRun 1800000 ⟨1000, 60000⟩ [CMEvent.connectCall]) = some () := by
  refine ⟨rfl, by decide, rfl⟩

/-- C10: when `updateRecurringRule` patches any scheduling parameter of
a non-custom rule, the stored cron expression is rebuilt from the patch
parameters alone — every parameter absent from the patch takes its
built-in default (minute 0, day-of-week 1, day-of-month 1, month 1,
hour = configured default send hour), independent of the previously
stored expression. -/
theorem C10_update_rule_cron (t : String)
    (ht : t ∈ (["daily", "weekly", "monthly", "yearly", "birthday"] : List String))
    (oldCron : String) (oldInt : Option Nat) (u : RuleUpdates) (h : Nat)
    (hu : needsCronUpdate u = true) :
    updatedCronExpression t oldCron oldInt u h
      = buildCronExpression t
          { sendHour := some (u.sendHour.getD h)
            sendMinute := some (u.sendMinute.getD 0)
            dayOfWeek := some (u.dayOfWeek.getD 1)
            dayOfMonth := some (u.dayOfMonth.getD 1)
            month := some (u.month.getD 1) } h := by
  fin_cases ht <;>
    simp [updatedCronExpression, hu, buildCronExpression, String.ext_iff]

/-- Witness for C10: patching only `sendMinute := 30` on a weekly rule
stored as `0 0 9 * * 5` rebuilds the cron with day-of-week reverted to
its default 1. -/
theorem C10_update_rule_cron_witness :
    ("weekly" ∈ (["daily", "weekly", "monthly", "yearly", "birthday"] : List String))
    ∧ needsCronUpdate { sendMinute := some 30 } = true
    ∧ updatedCronExpression "weekly" "0 0 9 * * 5" none { sendMinute := some 30 } 9
      = buildCronExpression "weekly"
          { sendHour := some ((Option.none).getD 9)
            sendMinute := some ((some 30).getD 0)
            dayOfWeek := some ((Option.none).getD 1)
            dayOfMonth := some ((Option.none).getD 1)
            month := some ((Option.none).getD 1) } 9 :=
  ⟨by decide, by decide,
    C10_update_rule_cron "weekly" (by decide) "0 0 9 * * 5" none { sendMinute := some 30 } 9
      (by decide)⟩

/-- C1 is refuted: an intent whose `sentAt` lies two days after the
current IST-day start — i.e. after the end of the current IST day — is
counted by `getSentTodayCount` (the SQL filter has no upper bound),
while the claimed window count is 0. -/
theorem C1_window_counterexample :
    getSentTodayCount
        [{ status := .sent, sentAt := some (getTodayIST 1700000000000 + 2 * dayMs) }]
        1700000000000 = 1
    ∧ specSentTodayCount
        [{ status := .sent, sentAt := some (getTodayIST 1700000000000 + 2 * dayMs) }]
        1700000000000 = 0 := by
  decide

/-- C1 amended: `allowed = sentToday < dailyCap`, and `sentToday` counts
every intent with status `sent` or `delivered` whose `sentAt` is at or
after the current IST-day start, with no upper bound: it decomposes as
the claimed in-window count plus the count of intents with `sentAt` at
or beyond the end of the current IST day. -/
theorem C1_sent_today_decomposition (store : List MsgRow) (nowMs cap : Nat) :
    (canSend store nowMs cap).allowed = decide (getSentTodayCount store nowMs < cap)
    ∧ getSentTodayCount store nowMs
      = specSentTodayCount store nowMs + overflowSentCount store nowMs := by
  refine ⟨rfl, ?_⟩
  induction store with
  | nil => rfl
  | cons m rest ih =>
    simp only [getSentTodayCount, specSentTodayCount, overflowSentCount,
      List.filter_cons] at ih ⊢
    rcases hsa : m.sentAt with _ | t
    · simpa [sentTodayPred, hsa] using ih
    · by_cases hst : (m.status = MsgStatus.sent || m.status = MsgStatus.delivered) = true
      · simp only [sentTodayPred, hsa, hst, Bool.and_true]
        by_cases hlo : getTodayIST nowMs ≤ t
        · by_cases hhi : t < getTodayIST nowMs + dayMs
          · have hov : ¬ (getTodayIST nowMs + dayMs ≤ t) := by omega
            simp [hlo, hhi, hov, hst]
            omega
          · have hov : getTodayIST nowMs + dayMs ≤ t := by omega
            simp [hlo, hhi, hov, hst]
            omega
        · have hov : ¬ (getTodayIST nowMs + dayMs ≤ t) := by omega
          simp [hlo, hov, hst]
          omega
      · simp [sentTodayPred, hsa, hst]
        exact ih

/-- C3 is refuted: a dispatch step does write the status of a terminal
intent again — the cap-denied branch rewrites a `sent` intent to
`failed`, and the job-failure handler rewrites a `cancelled` intent to
`failed`. -/
theorem C3_terminal_overwrite_counterexample :
    ((processSendJob
        (some { status := .sent, contactId := some "c", sentAt := some 5, attempts := 1 })
        { capResult := { allowed := false, remaining := 0, sentToday := 30, dailyCap := 30 }
          contactFound := true, sockConnected := true, providerMessageId := none }
        99).1.map MsgRow.status) = some .failed
    ∧ ((onJobFailed (some { status := .cancelled }) "WhatsApp not connected" 2 7).map
        MsgRow.status) = some .failed := by
  decide

/-- C3 amended: the dispatcher returns without writing only for a
missing or `cancelled` intent; any other status — including terminal
`sent`, `delivered`, `failed` — is rewritten to `failed` by the
cap-denied branch, and the job-failure handler writes `failed`
unconditionally (even over `cancelled`); `retryMessage` is the explicit
`failed → pending` transition and is a no-op on any other status. -/
theorem C3_terminal_not_sticky (mc m mf mr : MsgRow) (deps : SendDeps)
    (nowMs : Nat) (errMessage : String) (attemptsMade : Nat)
    (hmc : mc.status = .cancelled)
    (hm : m.status ≠ .cancelled)
    (hcap : deps.capResult.allowed = false)
    (hmf : mf.status ≠ .failed)
    (hmr : mr.status = .failed) :
    processSendJob (some mc) deps nowMs = (some mc, .skippedCancelled)
    ∧ processSendJob (some m) deps nowMs = (some (capFailWrite deps nowMs m), .failedCap)
    ∧ (onJobFailed (some mc) errMessage attemptsMade nowMs).map MsgRow.status = some .failed
    ∧ retryMessage (some mf) nowMs = (some mf, none)
    ∧ retryMessage (some mr) nowMs
      = (some { mr with
                  status := .pending
                  attempts := 0
                  failedAt := none
                  failureReason := none
                  scheduledAt := nowMs
                  updatedAt := nowMs },
         some { mr with
                  status := .pending
                  attempts := 0
                  failedAt := none
                  failureReason := none
                  scheduledAt := nowMs
                  updatedAt := nowMs }) := by
  refine ⟨?_, ?_, ?_, ?_, ?_⟩ <;>
    simp [processSendJob, onJobFailed, retryMessage, hmc, hm, hcap, hmf, hmr]

/-- Witness for C3: a fresh `pending` intent under a denied cap, a
`cancelled` intent hit by the failure handler, a `sent` intent that
retry refuses, and a `failed` intent that retry resets. -/
theorem C3_terminal_not_sticky_witness :
    (MsgStatus.cancelled = MsgStatus.cancelled)
    ∧ (MsgStatus.pending ≠ MsgStatus.cancelled)
    ∧ ((false : Bool) = false)
    ∧ (MsgStatus.sent ≠ MsgStatus.failed)
    ∧ (MsgStatus.failed = MsgStatus.failed)
    ∧ (processSendJob (some { status := .cancelled })
          { capResult := { allowed := false, remaining := 0, sentToday := 5, dailyCap := 5 }
            contactFound := true, sockConnected := true, providerMessageId := none } 9
        = (some { status := .cancelled }, .skippedCancelled)
      ∧ processSendJob (some { status := .pending })
          { capResult := { allowed := false, remaining := 0, sentToday := 5, dailyCap := 5 }
            contactFound := true, sockConnected := true, providerMessageId := none } 9
        = (some (capFailWrite
              { capResult := { allowed := false, remaining := 0, sentToday := 5, dailyCap := 5 }
                contactFound := true, sockConnected := true, providerMessageId := none } 9
              { status := .pending }), .failedCap)
      ∧ (onJobFailed (some { status := .cancelled }) "boom" 1 9).map MsgRow.status
        = some .failed
      ∧ retryMessage (some { status := .sent }) 9 = (some { status := .sent }, none)
      ∧ retryMessage (some { status := .failed }) 9
        = (some { (({ status := .failed } : MsgRow)) with
                    status := .pending
                    attempts := 0
                    failedAt := none
                    failureReason := none
                    scheduledAt := 9
                    updatedAt := 9 },
           some { (({ status := .failed } : MsgRow)) with
                    status := .pending
                    attempts := 0
                    failedAt := none
                    failureReason := none
                    scheduledAt := 9
                    updatedAt := 9 })) :=
  ⟨rfl, by decide, rfl, by decide, rfl,
    C3_terminal_not_sticky { status := .cancelled } { status := .pending }
      { status := .sent } { status := .failed }
      { capResult := { allowed := false, remaining := 0, sentToday := 5, dailyCap := 5 }
        contactFound := true, sockConnected := true, providerMessageId := none }
      9 "boom" 1 rfl (by decide) rfl (by decide) rfl⟩

/-- C6 is refuted: a second delivery ack for the same provider message
id is not a no-op — it rewrites `deliveredAt`/`updatedAt` to the new
time and emits another event. -/
theorem C6_second_ack_counterexample :
    (handleDeliveryAck
        (handleDeliveryAck
          [{ status := .sent, whatsappMessageId := some "w1", sentAt := some 10 }]
          (some 3) (some "w1") 100).1
        (some 3) (some "w1") 200).1
      ≠ (handleDeliveryAck
          [{ status := .sent, whatsappMessageId := some "w1", sentAt := some 10 }]
          (some 3) (some "w1") 100).1
    ∧ (handleDeliveryAck
        (handleDeliveryAck
          [{ status := .sent, whatsappMessageId := some "w1", sentAt := some 10 }]
          (some 3) (some "w1") 100).1
        (some 3) (some "w1") 200).2 = true := by
  decide

/-- C6 amended: a delivery ack with the delivered sentinel (status 3)
and a key id marks every intent with that `whatsappMessageId` as
`delivered` — whatever its current status — rewriting `deliveredAt` and
`updatedAt` to the ack time, and emits an event exactly when a row
matches; acks with other statuses or a missing key id change nothing;
a second sentinel ack is idempotent only in the status field: it
rewrites the timestamps again and emits again. -/
theorem C6_delivery_ack_behaviour (store : List MsgRow) (st : Nat)
    (kid : String) (t1 t2 : Nat) (hst : st ≠ 3) :
    handleDeliveryAck store (some st) (some kid) t1 = (store, false)
    ∧ handleDeliveryAck store none (some kid) t1 = (store, false)
    ∧ handleDeliveryAck store (some 3) none t1 = (store, false)
    ∧ (∀ m ∈ (handleDeliveryAck store (some 3) (some kid) t1).1,
        m.whatsappMessageId = some kid →
          m.status = .delivered ∧ m.deliveredAt = some t1 ∧ m.updatedAt = t1)
    ∧ (handleDeliveryAck store (some 3) (some kid) t1).2
      = store.any (fun m => m.whatsappMessageId = some kid)
    ∧ (∀ m ∈ (handleDeliveryAck
          (handleDeliveryAck store (some 3) (some kid) t1).1 (some 3) (some kid) t2).1,
        m.whatsappMessageId = some kid →
          m.status = .delivered ∧ m.deliveredAt = some t2 ∧ m.updatedAt = t2)
    ∧ (handleDeliveryAck
          (handleDeliveryAck store (some 3) (some kid) t1).1 (some 3) (some kid) t2).2
      = (handleDeliveryAck store (some 3) (some kid) t1).2 := by
  have anyCongr : ∀ (l : List MsgRow) (p q : MsgRow → Bool),
      (∀ a ∈ l, p a = q a) → l.any p = l.any q := by
    intro l p q h
    induction l with
    | nil => rfl
    | cons a t ih =>
      simp only [List.any_cons, h a (by simp)]
      rw [ih (fun b hb => h b (by simp [hb]))]
  have hfst : ∀ (l : List MsgRow) (t : Nat),
      (handleDeliveryAck l (some 3) (some kid) t).1
        = l.map (fun m => if m.whatsappMessageId = some kid then deliveredWrite t m else m) := by
    intro l t
    simp [handleDeliveryAck]
  have hsnd : ∀ (l : List MsgRow) (t : Nat),
      (handleDeliveryAck l (some 3) (some kid) t).2
        = l.any (fun m => m.whatsappMessageId = some kid) := by
    intro l t
    simp [handleDeliveryAck]
  have hgen : ∀ (l : List MsgRow) (t : Nat),
      ∀ m ∈ (handleDeliveryAck l (some 3) (some kid) t).1,
        m.whatsappMessageId = some kid →
          m.status = .delivered ∧ m.deliveredAt = some t ∧ m.updatedAt = t := by
    intro l t m hm hkid
    rw [hfst] at hm
    rcases List.mem_map.1 hm with ⟨m0, _, rfl⟩
    by_cases h : m0.whatsappMessageId = some kid
    · simp [h, deliveredWrite]
    · simp only [if_neg h] at hkid ⊢
      exact absurd hkid h
  refine ⟨?_, rfl, rfl, hgen store t1, hsnd store t1, hgen _ t2, ?_⟩
  · simp [handleDeliveryAck, hst]
  · rw [hsnd, hsnd, hfst, List.any_map]
    apply anyCongr
    intro m _
    by_cases h : m.whatsappMessageId = some kid <;> simp [h, deliveredWrite]

/-- Witness for C6 on a store holding one `sent` and one `failed` row. -/
theorem C6_delivery_ack_behaviour_witness :
    (5:Nat) ≠ 3
    ∧ (handleDeliveryAck
          [{ status := .sent, whatsappMessageId := some "w1" },
            { status := .failed, whatsappMessageId := some "w2" }]
          (some 5) (some "w1") 100
        = ([{ status := .sent, whatsappMessageId := some "w1" },
            { status := .failed, whatsappMessageId := some "w2" }], false)
      ∧ handleDeliveryAck
          [{ status := .sent, whatsappMessageId := some "w1" },
            { status := .failed, whatsappMessageId := some "w2" }]
          none (some "w1") 100
        = ([{ status := .sent, whatsappMessageId := some "w1" },
            { status := .failed, whatsappMessageId := some "w2" }], false)
      ∧ handleDeliveryAck
          [{ status := .sent, whatsappMessageId := some "w1" },
            { status := .failed, whatsappMessageId := some "w2" }]
          (some 3) none 100
        = ([{ status := .sent, whatsappMessageId := some "w1" },
            { status := .failed, whatsappMessageId := some "w2" }], false)
      ∧ (∀ m ∈ (handleDeliveryAck
            [{ status := .sent, whatsappMessageId := some "w1" },
              { status := .failed, whatsappMessageId := some "w2" }]
            (some 3) (some "w1") 100).1,
          m.whatsappMessageId = some "w1" →
            m.status = .delivered ∧ m.deliveredAt = some 100 ∧ m.updatedAt = 100)
      ∧ (handleDeliveryAck
            [{ status := .sent, whatsappMessageId := some "w1" },
              { status := .failed, whatsappMessageId := some "w2" }]
            (some 3) (some "w1") 100).2
        = ([{ status := .sent, whatsappMessageId := some "w1" },
            { status := .failed, whatsappMessageId := some "w2" }] : List MsgRow).any
            (fun m => m.whatsappMessageId = some "w1")
      ∧ (∀ m ∈ (handleDeliveryAck
            (handleDeliveryAck
              [{ status := .sent, whatsappMessageId := some "w1" },
                { status := .failed, whatsappMessageId := some "w2" }]
              (some 3) (some "w1") 100).1 (some 3) (some "w1") 200).1,
          m.whatsappMessageId = some "w1" →
            m.status = .delivered ∧ m.deliveredAt = some 200 ∧ m.updatedAt = 200)
      ∧ (handleDeliveryAck
            (handleDeliveryAck
              [{ status := .sent, whatsappMessageId := some "w1" },
                { status := .failed, whatsappMessageId := some "w2" }]
              (some 3) (some "w1") 100).1 (some 3) (some "w1") 200).2
        = (handleDeliveryAck
              [{ status := .sent, whatsappMessageId := some "w1" },
                { status := .failed, whatsappMessageId := some "w2" }]
              (some 3) (some "w1") 100).2) :=
  ⟨by decide,
    C6_delivery_ack_behaviour
      [{ status := .sent, whatsappMessageId := some "w1" },
        { status := .failed, whatsappMessageId := some "w2" }]
      5 "w1" 100 200 (by decide)⟩

/-- C2 is refuted on its race clause: when Cancel commits after the
dispatcher's read but before the dispatcher's status update (while the
send is in flight), Cancel does commit `pending → cancelled` — strictly
before the status update — yet the provider call is made and the
unconditional update overwrites the status to `sent`. -/
theorem C2_cancel_midflight_counterexample :
    (raceRun
        { capResult := { allowed := true, remaining := 10, sentToday := 0, dailyCap := 10 }
          contactFound := true, sockConnected := true, providerMessageId := some "w1" }
        50 (some { status := .pending, contactId := some "c" })
        [.dispatchBegin, .cancelStep, .dispatchCommit]).cancelReturned
      = some (some { status := .cancelled, contactId := some "c", updatedAt := 50 })
    ∧ (raceRun
        { capResult := { allowed := true, remaining := 10, sentToday := 0, dailyCap := 10 }
          contactFound := true, sockConnected := true, providerMessageId := some "w1" }
        50 (some { status := .pending, contactId := some "c" })
        [.dispatchBegin, .cancelStep, .dispatchCommit]).row.map MsgRow.status
      = some .sent
    ∧ (raceRun
        { capResult := { allowed := true, remaining := 10, sentToday := 0, dailyCap := 10 }
          contactFound := true, sockConnected := true, providerMessageId := some "w1" }
        50 (some { status := .pending, contactId := some "c" })
        [.dispatchBegin, .cancelStep, .dispatchCommit]).providerCalls = 1 := by
  decide

/-- C2 amended: Cancel is the atomic conditional update
`pending → cancelled` (null and no change otherwise); if Cancel commits
before the dispatcher reads the intent, the dispatcher observes
`cancelled` and returns with no provider call, so the status stays
`cancelled`; but if Cancel commits after the read and before the
dispatcher's status update, the provider call is made and the
unconditional update overwrites `cancelled` with `sent`. -/
theorem C2_cancel_vs_dispatch (m m2 : MsgRow) (deps : SendDeps) (nowMs : Nat)
    (cid : String)
    (hp : m.status = .pending)
    (hcid : m.contactId = some cid) (hgid : m.groupId = none)
    (hm2 : m2.status ≠ .pending)
    (hcap : deps.capResult.allowed = true) (hcf : deps.contactFound = true)
    (hsock : deps.sockConnected = true) :
    cancelMessage (some m) nowMs
      = (some { m with status := .cancelled, updatedAt := nowMs },
          some { m with status := .cancelled, updatedAt := nowMs })
    ∧ cancelMessage (some m2) nowMs = (some m2, none)
    ∧ (raceRun deps nowMs (some m)
        [.cancelStep, .dispatchBegin, .dispatchCommit]).row.map MsgRow.status
      = some .cancelled
    ∧ (raceRun deps nowMs (some m)
        [.cancelStep, .dispatchBegin, .dispatchCommit]).providerCalls = 0
    ∧ (raceRun deps nowMs (some m)
        [.dispatchBegin, .cancelStep, .dispatchCommit]).cancelReturned
      = some (some { m with status := .cancelled, updatedAt := nowMs })
    ∧ (raceRun deps nowMs (some m)
        [.dispatchBegin, .cancelStep, .dispatchCommit]).row.map MsgRow.status
      = some .sent
    ∧ (raceRun deps nowMs (some m)
        [.dispatchBegin, .cancelStep, .dispatchCommit]).providerCalls = 1 := by
  refine ⟨?_, ?_, ?_, ?_, ?_, ?_, ?_⟩ <;>
    simp [raceRun, raceStep, cancelMessage, sentWrite, hp, hcid, hgid, hm2,
      hcap, hcf, hsock]

/-- Witness for C2 on a fresh pending intent addressed to a contact. -/
theorem C2_cancel_vs_dispatch_witness :
    (MsgStatus.pending = MsgStatus.pending)
    ∧ ((some "c" : Option String) = some "c")
    ∧ ((none : Option String) = none)
    ∧ (MsgStatus.sent ≠ MsgStatus.pending)
    ∧ ((true : Bool) = true)
    ∧ (cancelMessage (some { status := .pending, contactId := some "c" }) 50
        = (some { status := .cancelled, contactId := some "c", updatedAt := 50 },
            some { status := .cancelled, contactId := some "c", updatedAt := 50 })
      ∧ cancelMessage (some { status := .sent, contactId := some "c" }) 50
        = (some { status := .sent, contactId := some "c" }, none)
      ∧ (raceRun
          { capResult := { allowed := true, remaining := 10, sentToday := 0, dailyCap := 10 }
            contactFound := true, sockConnected := true, providerMessageId := some "w1" }
          50 (some { status := .pending, contactId := some "c" })
          [.cancelStep, .dispatchBegin, .dispatchCommit]).row.map MsgRow.status
        = some .cancelled
      ∧ (raceRun
          { capResult := { allowed := true, remaining := 10, sentToday := 0, dailyCap := 10 }
            contactFound := true, sockConnected := true, providerMessageId := some "w1" }
          50 (some { status := .pending, contactId := some "c" })
          [.cancelStep, .dispatchBegin, .dispatchCommit]).providerCalls = 0
      ∧ (raceRun
          { capResult := { allowed := true, remaining := 10, sentToday := 0, dailyCap := 10 }
            contactFound := true, sockConnected := true, providerMessageId := some "w1" }
          50 (some { status := .pending, contactId := some "c" })
          [.dispatchBegin, .cancelStep, .dispatchCommit]).cancelReturned
        = some (some { status := .cancelled, contactId := some "c", updatedAt := 50 })
      ∧ (raceRun
          { capResult := { allowed := true, remaining := 10, sentToday := 0, dailyCap := 10 }
            contactFound := true, sockConnected := true, providerMessageId := some "w1" }
          50 (some { status := .pending, contactId := some "c" })
          [.dispatchBegin, .cancelStep, .dispatchCommit]).row.map MsgRow.status
        = some .sent
      ∧ (raceRun
          { capResult := { allowed := true, remaining := 10, sentToday := 0, dailyCap := 10 }
            contactFound := true, sockConnected := true, providerMessageId := some "w1" }
          50 (some { status := .pending, contactId := some "c" })
          [.dispatchBegin, .cancelStep, .dispatchCommit]).providerCalls = 1) :=
  ⟨rfl, rfl, rfl, by decide, rfl,
    by
      have h := C2_cancel_vs_dispatch
        { status := .pending, contactId := some "c" }
        { status := .sent, contactId := some "c" }
        { capResult := { allowed := true, remaining := 10, sentToday := 0, dailyCap := 10 }
          contactFound := true, sockConnected := true, providerMessageId := some "w1" }
        50 "c" rfl rfl rfl (by decide) rfl rfl rfl
      exact h⟩

/-- Alphabet characters decode back to their value. -/
theorem charVal_valToChar : ∀ v < 64, charVal (valToChar v) = some v := by
  decide

/-- No output of `valToChar` is the component separator. -/
theorem valToChar_ne_colon (v : Nat) : valToChar v ≠ ':' := by
  unfold valToChar
  by_cases h : v < b64Alphabet.length
  · rw [List.getD_eq_getElem b64Alphabet 'A' h]
    have hmem : b64Alphabet[v] ∈ b64Alphabet := List.getElem_mem h
    intro hc
    rw [hc] at hmem
    exact (by decide : ':' ∉ b64Alphabet) hmem
  · rw [List.getD_eq_default b64Alphabet 'A' (by omega)]
    decide

/-- The padding character carries no value. -/
theorem charVal_eqsign : charVal '=' = none := by decide

/-- Base64 decoding inverts encoding on byte sequences. -/
theorem b64_roundtrip : ∀ (bs : List Nat), (∀ b ∈ bs, b < 256) →
    b64decode (b64encode bs) = bs := by
  intro bs
  induction bs using b64encode.induct with
  | case1 => intro _; rfl
  | case2 b1 =>
    intro h
    have hb1 : b1 < 256 := h b1 (by simp)
    simp only [b64encode, b64decode, List.filterMap_cons,
      charVal_valToChar (b1 / 4) (by omega),
      charVal_valToChar (b1 % 4 * 16) (by omega),
      charVal_eqsign, List.filterMap_nil]
    simp only [b64decodeVals]
    simp only [List.cons.injEq, and_true]
    omega
  | case3 b1 b2 =>
    intro h
    have hb1 : b1 < 256 := h b1 (by simp)
    have hb2 : b2 < 256 := h b2 (by simp)
    simp only [b64encode, b64decode, List.filterMap_cons,
      charVal_valToChar (b1 / 4) (by omega),
      charVal_valToChar (b1 % 4 * 16 + b2 / 16) (by omega),
      charVal_valToChar (b2 % 16 * 4) (by omega),
      charVal_eqsign, List.filterMap_nil]
    simp only [b64decodeVals]
    simp only [List.cons.injEq, and_true]
    omega
  | case4 b1 b2 b3 rest ih =>
    intro h
    have hb1 : b1 < 256 := h b1 (by simp)
    have hb2 : b2 < 256 := h b2 (by simp)
    have hb3 : b3 < 256 := h b3 (by simp)
    have ih' := ih (fun b hb => h b (by simp [hb]))
    simp only [b64encode, b64decode, List.filterMap_cons,
      charVal_valToChar (b1 / 4) (by omega),
      charVal_valToChar (b1 % 4 * 16 + b2 / 16) (by omega),
      charVal_valToChar (b2 % 16 * 4 + b3 / 64) (by omega),
      charVal_valToChar (b3 % 64) (by omega)]
    simp only [b64decodeVals]
    simp only [b64decode] at ih'
    rw [ih']
    simp only [List.cons.injEq]
    refine ⟨by omega, by omega, by omega, trivial⟩

/-- Base64 output never contains the separator. -/
theorem colon_not_mem_b64encode : ∀ (bs : List Nat), ':' ∉ b64encode bs := by
  intro bs
  induction bs using b64encode.induct with
  | case1 => simp [b64encode]
  | case2 b1 =>
    simp only [b64encode, List.mem_cons, List.not_mem_nil, or_false]
    push_neg
    exact ⟨(valToChar_ne_colon _).symm, (valToChar_ne_colon _).symm, by decide, by decide⟩
  | case3 b1 b2 =>
    simp only [b64encode, List.mem_cons, List.not_mem_nil, or_false]
    push_neg
    exact ⟨(valToChar_ne_colon _).symm, (valToChar_ne_colon _).symm,
      (valToChar_ne_colon _).symm, by decide⟩
  | case4 b1 b2 b3 rest ih =>
    simp only [b64encode, List.mem_cons]
    push_neg
    exact ⟨(valToChar_ne_colon _).symm, (valToChar_ne_colon _).symm,
      (valToChar_ne_colon _).symm, (valToChar_ne_colon _).symm, ih⟩

/-- A separator-free string splits to itself. -/
theorem jsplit_no_sep (sep : Char) (a : List Char) (ha : sep ∉ a) :
    jsplit sep a = [a] := by
  induction a with
  | nil => rfl
  | cons c cs ih =>
    have hc : c ≠ sep := fun h => ha (by simp [h])
    have ih' := ih (fun h => ha (List.mem_cons_of_mem _ h))
    simp only [jsplit, if_neg hc, ih']

/-- Splitting peels a separator-free prefix. -/
theorem jsplit_append_sep (sep : Char) (a rest : List Char) (ha : sep ∉ a) :
    jsplit sep (a ++ sep :: rest) = a :: jsplit sep rest := by
  induction a with
  | nil => simp [jsplit]
  | cons c cs ih =>
    have hc : c ≠ sep := fun h => ha (by simp [h])
    have ih' := ih (fun h => ha (List.mem_cons_of_mem _ h))
    simp only [List.cons_append, jsplit, if_neg hc, List.append_eq]
    rw [ih']

/-- XOR against the keystream is an involution. -/
theorem xorStream_involutive (key : List Nat × List Nat) (iv : List Nat) :
    ∀ (i : Nat) (bs : List Nat), xorStream key iv i (xorStream key iv i bs) = bs := by
  intro i bs
  induction bs generalizing i with
  | nil => rfl
  | cons b rest ih =>
    simp only [xorStream, List.cons.injEq]
    exact ⟨Nat.xor_cancel_right _ _, ih (i + 1)⟩

/-- The keystream XOR keeps bytes below 256. -/
theorem xorStream_lt (key : List Nat × List Nat) (iv : List Nat) :
    ∀ (i : Nat) (bs : List Nat), (∀ b ∈ bs, b < 256) →
      ∀ b ∈ xorStream key iv i bs, b < 256 := by
  intro i bs
  induction bs generalizing i with
  | nil => intro _ b hb; simp [xorStream] at hb
  | cons x rest ih =>
    intro h b hb
    simp only [xorStream, List.mem_cons] at hb
    rcases hb with hb | hb
    · subst hb
      have hx : x < 2 ^ 8 := h x (by simp)
      have hk : ksByte key iv i < 2 ^ 8 := Nat.mod_lt _ (by norm_num)
      exact Nat.xor_lt_two_pow hx hk
    · exact ih (i + 1) (fun y hy => h y (by simp [hy])) b hb

/-- Splitting an encrypted blob recovers its four components. -/
theorem jsplit_encrypt (plaintext password salt iv : List Nat) :
    jsplit ':' (encrypt plaintext password salt iv)
      = [b64encode salt, b64encode iv,
          b64encode (gcmTag (deriveKey password salt) iv
            (gcmEncryptBytes (deriveKey password salt) iv plaintext)),
          b64encode (gcmEncryptBytes (deriveKey password salt) iv plaintext)] := by
  unfold encrypt
  rw [jsplit_append_sep _ _ _ (colon_not_mem_b64encode salt),
    jsplit_append_sep _ _ _ (colon_not_mem_b64encode iv),
    jsplit_append_sep _ _ _ (colon_not_mem_b64encode _),
    jsplit_no_sep _ _ (colon_not_mem_b64encode _)]

/-- C5: under the ideal-cipher model of the vault's AEAD primitives,
decrypt inverts encrypt for the right master key; a different master
key fails the integrity check; and two encryptions of the same
plaintext under distinct salt draws produce distinct ciphertext
strings.  Byte sequences range over bytes (`< 256`); the distinctness
of the fresh random salts is a hypothesis. -/
theorem C5_vault_roundtrip (pt pw pw' salt salt' iv iv' : List Nat)
    (hpt : ∀ b ∈ pt, b < 256) (hpw : ∀ b ∈ pw, b < 256)
    (hsalt : ∀ b ∈ salt, b < 256) (hsalt' : ∀ b ∈ salt', b < 256)
    (hiv : ∀ b ∈ iv, b < 256)
    (hkey : pw' ≠ pw) (hss : salt ≠ salt') :
    decrypt (encrypt pt pw salt iv) pw = .ok pt
    ∧ decrypt (encrypt pt pw salt iv) pw' = .error .integrityFailure
    ∧ encrypt pt pw salt iv ≠ encrypt pt pw salt' iv' := by
  have hct : ∀ b ∈ gcmEncryptBytes (deriveKey pw salt) iv pt, b < 256 :=
    xorStream_lt _ _ 0 pt hpt
  have htag : ∀ b ∈ gcmTag (deriveKey pw salt) iv
      (gcmEncryptBytes (deriveKey pw salt) iv pt), b < 256 := by
    intro b hb
    simp only [gcmTag, deriveKey, List.append_assoc, List.mem_append] at hb
    rcases hb with hb | hb | hb | hb
    · exact hpw b hb
    · exact hsalt b hb
    · exact hiv b hb
    · exact hct b hb
  refine ⟨?_, ?_, ?_⟩
  · unfold decrypt
    rw [jsplit_encrypt]
    simp only [b64_roundtrip salt hsalt, b64_roundtrip iv hiv,
      b64_roundtrip _ htag, b64_roundtrip _ hct]
    simp only [if_true, eq_self_iff_true]
    unfold gcmDecryptBytes gcmEncryptBytes
    rw [xorStream_involutive]
  · unfold decrypt
    rw [jsplit_encrypt]
    simp only [b64_roundtrip salt hsalt, b64_roundtrip iv hiv,
      b64_roundtrip _ htag, b64_roundtrip _ hct]
    rw [if_neg]
    intro hcontra
    simp only [gcmTag, deriveKey] at hcontra
    exact hkey (List.append_cancel_right (List.append_cancel_right
      (List.append_cancel_right hcontra))).symm
  · intro hcontra
    have h1 := congrArg (jsplit ':') hcontra
    rw [jsplit_encrypt, jsplit_encrypt] at h1
    have h2 : b64encode salt = b64encode salt' := by
      injection h1
    have h3 := congrArg b64decode h2
    rw [b64_roundtrip salt hsalt, b64_roundtrip salt' hsalt'] at h3
    exact hss h3

/-- Witness for C5 with concrete plaintext, keys, salts and IV. -/
theorem C5_vault_roundtrip_witness :
    (∀ b ∈ ([104, 105] : List Nat), b < 256)
    ∧ (∀ b ∈ ([1, 2] : List Nat), b < 256)
    ∧ (∀ b ∈ ([3] : List Nat), b < 256)
    ∧ (∀ b ∈ ([4] : List Nat), b < 256)
    ∧ (∀ b ∈ ([5] : List Nat), b < 256)
    ∧ ([9] : List Nat) ≠ [1, 2]
    ∧ ([3] : List Nat) ≠ [4]
    ∧ (decrypt (encrypt [104, 105] [1, 2] [3] [5]) [1, 2] = .ok [104, 105]
      ∧ decrypt (encrypt [104, 105] [1, 2] [3] [5]) [9] = .error .integrityFailure
      ∧ encrypt [104, 105] [1, 2] [3] [5] ≠ encrypt [104, 105] [1, 2] [4] [5]) :=
  ⟨by decide, by decide, by decide, by decide, by decide, by decide, by decide,
    C5_vault_roundtrip [104, 105] [1, 2] [9] [3] [4] [5] [5]
      (by decide) (by decide) (by decide) (by decide) (by decide)
      (by decide) (by decide)⟩

/-- C8 is refuted: appending an extra `:junk` component to a valid
ciphertext yields a malformed input (five colon-separated parts, not
four) that `decrypt` nevertheless accepts, returning the plaintext —
the JS destructuring silently drops components past the fourth. -/
theorem C8_extra_parts_counterexample :
    (jsplit ':' (encrypt [104] [1] [2] [3] ++ ':' :: ['j', 'u', 'n', 'k'])).length = 5
    ∧ decrypt (encrypt [104] [1] [2] [3] ++ ':' :: ['j', 'u', 'n', 'k']) [1]
      = .ok [104] :=
  ⟨rfl, rfl⟩

/-- C8 amended: `decrypt` rejects, for every master key, any input with
fewer than four colon-separated components (a missing component makes
`Buffer.from(undefined)` throw); inputs with more than four components
are not rejected — the parts past the fourth are ignored — and
wrongly-sized or corrupted components surface as a failure of the
integrity check during decryption rather than up-front validation. -/
theorem C8_missing_components_rejected (s : List Char) (pw : List Nat)
    (h : (jsplit ':' s).length < 4) :
    decrypt s pw = .error .missingComponent := by
  unfold decrypt
  rcases hs : jsplit ':' s with _ | ⟨a, _ | ⟨b, _ | ⟨c, _ | ⟨d, rest⟩⟩⟩⟩
  · rfl
  · rfl
  · rfl
  · rfl
  · rw [hs] at h
    simp at h
    omega

/-- Witness for C8 on the two-component input `a:b`. -/
theorem C8_missing_components_rejected_witness :
    (jsplit ':' ['a', ':', 'b']).length < 4
    ∧ decrypt ['a', ':', 'b'] [] = .error .missingComponent :=
  ⟨by decide, C8_missing_components_rejected ['a', ':', 'b'] [] (by decide)⟩

end WABridge
